import Mathlib

/-!
Verification of the polari-materials-science-module derivation layer.

This file is a shallow embedding of the abstraction/derivation pattern of the
repository: the level-2 "derived value" entities (HardnessScale, KrebsViscosity,
UltimateTensileStrength, CoefficientOfThermalExpansion, MFIValue,
ReferentialSpecificGravity, CriticalSurfaceTension), their
`calculate_from_measurements`-style derivation methods, the construction chain
of the hardness family (for the `abstractionLevel` invariant), and the
registry/factory key set.

Modelling conventions:
- Python float arithmetic is embedded as exact rational arithmetic (`ℚ`),
  except the Owens-Wendt solve, which uses `cos`/`sqrt` and is embedded over `ℝ`.
- A Python object is a record of its attributes; a method mutating `self`
  becomes a function `state → args → result × state`.
- Duck-typed raw-measurement inputs are records whose possibly-absent
  attributes are `Option` fields (`none` = the attribute is missing, so
  `hasattr` is `false` and a direct attribute access raises `AttributeError`).
- Methods that can raise return `Except PyError`.
- Python's short-circuit `and` in the validity guards is mirrored exactly
  (a non-positive first field means the second attribute is never accessed).
-/

/-- Python runtime errors that the embedded code can raise. -/
inductive PyError where
  | attributeError (attr : String)
deriving DecidableEq

/-! ## Duck-typed raw measurement inputs

Each derivation method consumes a list of records expected to expose specific
numeric attributes.  `Option` fields model the duck typing: `none` means the
record does not have the attribute at all. -/

/-- A duck-typed input to `HardnessScale.calculate_from_measurements`; the code
guards the access with `hasattr(m, 'hardnessReading')`. -/
structure HardnessDatapoint where
  hardnessReading : Option ℚ
deriving DecidableEq

/-- A duck-typed input to `KrebsViscosity.calculate_from_stormer_measurements`;
the code accesses `measurement.grams` and `measurement.revolutions` with no
`hasattr` guard. -/
structure StormerDatapoint where
  grams : Option ℚ
  revolutions : Option ℚ
deriving DecidableEq

/-- A duck-typed input to `UltimateTensileStrength.calculate_from_measurements`;
the code guards the access with `hasattr(m, 'forceN')`. -/
structure TensileDatapoint where
  forceN : Option ℚ
deriving DecidableEq

/-- A duck-typed input to `MFIValue.calculate_from_measurements`; the code
accesses `m.extrudateMass` and `m.extrusionTime` with no `hasattr` guard. -/
structure MFIDatapoint where
  extrudateMass : Option ℚ
  extrusionTime : Option ℚ
deriving DecidableEq

/-- An input to `CoefficientOfThermalExpansion.calculate_from_measurements`;
the code accesses `m.temperatureC` (in the sort key) and
`m.dimensionChangeMicron` unconditionally. -/
structure TMADatapoint where
  temperatureC : ℚ
  dimensionChangeMicron : ℚ
deriving DecidableEq

/-- A duck-typed input to
`ReferentialSpecificGravity.calculate_from_measurements`; the code guards the
access with `hasattr(measurement, 'specificGravityValue')`. -/
structure SpecificGravityDatapoint where
  specificGravityValue : Option ℚ
deriving DecidableEq

/-! ## Level-2 derived-value entity states

One structure per concrete class, carrying every attribute assigned anywhere in
its `__init__` chain (`treeObject` assigns `id`; `MaterialProperty.__init__`
assigns `name`, `description`, `deviceId`; `PropertyCategory.__init__` assigns
`materialId`, `categoryDescription`; then the class-specific fields). -/

/-- State of a `HardnessScale` instance (level 2 of the hardness family). -/
structure HardnessScale where
  id : String
  name : String
  description : String
  deviceId : String
  materialId : String
  categoryDescription : String
  abstractionLevel : ℕ
  hardnessValue : ℚ
  scale : String
  temperature : ℚ
  measurementDate : String
  notes : String
deriving DecidableEq

/-- State of a `KrebsViscosity` instance (level 2 of the viscosity family). -/
structure KrebsViscosity where
  id : String
  name : String
  description : String
  deviceId : String
  materialId : String
  categoryDescription : String
  abstractionLevel : ℕ
  viscosityKU : ℚ
  temperature : ℚ
  measurementDate : String
  notes : String
deriving DecidableEq

/-- State of an `UltimateTensileStrength` instance (level 2 of the
tensile-strength family). -/
structure UltimateTensileStrength where
  id : String
  name : String
  description : String
  deviceId : String
  materialId : String
  categoryDescription : String
  abstractionLevel : ℕ
  utsMPa : ℚ
  yieldStrengthMPa : ℚ
  elongationAtBreak : ℚ
  youngsModulusMPa : ℚ
  specimenType : String
  testSpeed : ℚ
  temperature : ℚ
  measurementDate : String
  notes : String
deriving DecidableEq

/-- State of a `CoefficientOfThermalExpansion` instance (level 2 of the
thermal-expansion family). -/
structure CoefficientOfThermalExpansion where
  id : String
  name : String
  description : String
  deviceId : String
  materialId : String
  categoryDescription : String
  abstractionLevel : ℕ
  ctePpmPerC : ℚ
  temperatureRangeLowC : ℚ
  temperatureRangeHighC : ℚ
  expansionType : String
  direction : String
  measurementMethod : String
  heatingRate : ℚ
  measurementDate : String
  notes : String
deriving DecidableEq

/-- State of an `MFIValue` instance (level 2 of the melt-flow-index family). -/
structure MFIValue where
  id : String
  name : String
  description : String
  deviceId : String
  materialId : String
  categoryDescription : String
  abstractionLevel : ℕ
  mfiGramsPer10Min : ℚ
  testTemperature : ℚ
  testLoad : ℚ
  polymerType : String
  measurementDate : String
  notes : String
deriving DecidableEq

/-- State of a `ReferentialSpecificGravity` instance (level 2 of the
specific-gravity family; its chain goes through `SpecificGravity` directly to
`MaterialProperty`, so there is no `categoryDescription`). -/
structure ReferentialSpecificGravity where
  id : String
  name : String
  description : String
  deviceId : String
  materialId : String
  abstractionLevel : ℕ
  specificGravityValue : ℚ
  referenceMaterial : String
  referenceTemperature : ℚ
  sampleTemperature : ℚ
  measurementDate : String
  notes : String
deriving DecidableEq

/-- State of a `CriticalSurfaceTension` instance (level 2 of the
solid-surface-energy family).  Numeric fields are `ℝ` because the Owens-Wendt
solve uses `cos` and `sqrt`. -/
structure CriticalSurfaceTension where
  id : String
  name : String
  description : String
  deviceId : String
  materialId : String
  categoryDescription : String
  abstractionLevel : ℕ
  surfaceEnergyMNm : ℝ
  dispersiveComponent : ℝ
  polarComponent : ℝ
  calculationMethod : String
  temperature : ℝ
  measurementDate : String
  notes : String

/-! ## Derivation methods -/

/-- One iteration of the accumulation loop of
`HardnessScale.calculate_from_measurements` (`total`, `count`): the record
contributes only when it has the `hardnessReading` attribute (`hasattr`) with a
positive value. -/
def hardnessStep (acc : ℚ × ℕ) (m : HardnessDatapoint) : ℚ × ℕ :=
  match m.hardnessReading with
  | some r => if 0 < r then (acc.1 + r, acc.2 + 1) else acc
  | none => acc

/-- Embedding of `HardnessScale.calculate_from_measurements`: average of the
`hardnessReading` of every record that has the attribute with a positive value;
returns the (possibly updated) stored value together with the updated state. -/
def HardnessScale.calculate_from_measurements (self : HardnessScale)
    (measurements : List HardnessDatapoint) : ℚ × HardnessScale :=
  if measurements.isEmpty then (self.hardnessValue, self)
  else
    let tc := measurements.foldl hardnessStep ((0 : ℚ), (0 : ℕ))
    if 0 < tc.2 then
      let v := tc.1 / (tc.2 : ℚ)
      (v, { self with hardnessValue := v })
    else (self.hardnessValue, self)

/-- The accumulation loop of `KrebsViscosity.calculate_from_stormer_measurements`:
`total_normalized_grams` and `count`; raises `AttributeError` when a record
lacks `grams` (or lacks `revolutions` while `grams` is positive, because the
Python `and` short-circuits). -/
def krebsLoop : List StormerDatapoint → ℚ × ℕ → Except PyError (ℚ × ℕ)
  | [], acc => .ok acc
  | m :: rest, acc =>
    match m.grams with
    | none => .error (.attributeError "grams")
    | some g =>
      if 0 < g then
        match m.revolutions with
        | none => .error (.attributeError "revolutions")
        | some r =>
          if 0 < r then krebsLoop rest (acc.1 + g * (200 / r), acc.2 + 1)
          else krebsLoop rest acc
      else krebsLoop rest acc

/-- Embedding of `KrebsViscosity.calculate_from_stormer_measurements`:
normalize each reading to 200 revolutions, average, then apply the empirical
linear formula `KU = avg * 2.08 + 15.8`. -/
def KrebsViscosity.calculate_from_stormer_measurements (self : KrebsViscosity)
    (stormer_measurements : List StormerDatapoint) :
    Except PyError (ℚ × KrebsViscosity) :=
  if stormer_measurements.isEmpty then .ok (self.viscosityKU, self)
  else
    match krebsLoop stormer_measurements (0, 0) with
    | .error e => .error e
    | .ok tc =>
      if 0 < tc.2 then
        let avg := tc.1 / (tc.2 : ℚ)
        let v := avg * 2.08 + 15.8
        .ok (v, { self with viscosityKU := v })
      else .ok (self.viscosityKU, self)

/-- One iteration of the running-maximum loop of
`UltimateTensileStrength.calculate_from_measurements`: a record contributes
its stress `forceN / cross_section_area_mm2` only when it has the `forceN`
attribute (`hasattr`) with a positive value. -/
def utsStep (cross_section_area_mm2 : ℚ) (acc : ℚ) (m : TensileDatapoint) : ℚ :=
  match m.forceN with
  | some f =>
    if 0 < f then
      let stress := f / cross_section_area_mm2
      if acc < stress then stress else acc
    else acc
  | none => acc

/-- Embedding of `UltimateTensileStrength.calculate_from_measurements`: running
maximum (started at `0.0`) of `forceN / cross_section_area_mm2` over records
that have a positive `forceN`; the maximum is stored unconditionally once the
guards pass. -/
def UltimateTensileStrength.calculate_from_measurements
    (self : UltimateTensileStrength) (measurements : List TensileDatapoint)
    (cross_section_area_mm2 : ℚ) : ℚ × UltimateTensileStrength :=
  if measurements.isEmpty then (self.utsMPa, self)
  else if cross_section_area_mm2 ≤ 0 then (self.utsMPa, self)
  else
    let max_stress := measurements.foldl (utsStep cross_section_area_mm2) (0 : ℚ)
    (max_stress, { self with utsMPa := max_stress })

/-- The sort performed by `CoefficientOfThermalExpansion.calculate_from_measurements`
(`sorted(measurements, key=lambda m: m.temperatureC)`, a stable sort). -/
def cteSorted (measurements : List TMADatapoint) : List TMADatapoint :=
  measurements.mergeSort (fun a b => decide (a.temperatureC ≤ b.temperatureC))

/-- Embedding of `CoefficientOfThermalExpansion.calculate_from_measurements`:
sort by temperature, take the first and last points, and when the temperature
delta is positive store `CTE = (ΔL / (L0 * 1000)) / ΔT * 1e6` together with the
temperature range endpoints. -/
def CoefficientOfThermalExpansion.calculate_from_measurements
    (self : CoefficientOfThermalExpansion) (measurements : List TMADatapoint)
    (original_length_mm : ℚ) : ℚ × CoefficientOfThermalExpansion :=
  if measurements.isEmpty then (self.ctePpmPerC, self)
  else if measurements.length < 2 then (self.ctePpmPerC, self)
  else if original_length_mm ≤ 0 then (self.ctePpmPerC, self)
  else
    match (cteSorted measurements).head?, (cteSorted measurements).getLast? with
    | some first, some lastm =>
      let delta_L := lastm.dimensionChangeMicron - first.dimensionChangeMicron
      let delta_T := lastm.temperatureC - first.temperatureC
      if 0 < delta_T then
        let v := (delta_L / (original_length_mm * 1000)) / delta_T * 1000000
        (v, { self with ctePpmPerC := v,
                        temperatureRangeLowC := first.temperatureC,
                        temperatureRangeHighC := lastm.temperatureC })
      else (self.ctePpmPerC, self)
    | _, _ => (self.ctePpmPerC, self)

/-- The accumulation loop of `MFIValue.calculate_from_measurements`:
`total_rate` and `count`; raises `AttributeError` when a record lacks
`extrudateMass` (or lacks `extrusionTime` while `extrudateMass` is positive,
because the Python `and` short-circuits). -/
def mfiLoop : List MFIDatapoint → ℚ × ℕ → Except PyError (ℚ × ℕ)
  | [], acc => .ok acc
  | m :: rest, acc =>
    match m.extrudateMass with
    | none => .error (.attributeError "extrudateMass")
    | some mass =>
      if 0 < mass then
        match m.extrusionTime with
        | none => .error (.attributeError "extrusionTime")
        | some t =>
          if 0 < t then mfiLoop rest (acc.1 + mass / t * 600, acc.2 + 1)
          else mfiLoop rest acc
      else mfiLoop rest acc

/-- Embedding of `MFIValue.calculate_from_measurements`: average of the
normalized rates `extrudateMass / extrusionTime * 600`. -/
def MFIValue.calculate_from_measurements (self : MFIValue)
    (measurements : List MFIDatapoint) : Except PyError (ℚ × MFIValue) :=
  if measurements.isEmpty then .ok (self.mfiGramsPer10Min, self)
  else
    match mfiLoop measurements (0, 0) with
    | .error e => .error e
    | .ok tc =>
      if 0 < tc.2 then
        let v := tc.1 / (tc.2 : ℚ)
        .ok (v, { self with mfiGramsPer10Min := v })
      else .ok (self.mfiGramsPer10Min, self)

/-- One iteration of the accumulation loop of
`ReferentialSpecificGravity.calculate_from_measurements` (`total_sg`, `count`):
the record contributes only when it has the `specificGravityValue` attribute
(`hasattr`) with a positive value. -/
def sgStep (acc : ℚ × ℕ) (m : SpecificGravityDatapoint) : ℚ × ℕ :=
  match m.specificGravityValue with
  | some sg => if 0 < sg then (acc.1 + sg, acc.2 + 1) else acc
  | none => acc

/-- Embedding of `ReferentialSpecificGravity.calculate_from_measurements`:
average of the `specificGravityValue` of every record that has the attribute
with a positive value. -/
def ReferentialSpecificGravity.calculate_from_measurements
    (self : ReferentialSpecificGravity)
    (measurements : List SpecificGravityDatapoint) :
    ℚ × ReferentialSpecificGravity :=
  if measurements.isEmpty then (self.specificGravityValue, self)
  else
    let tc := measurements.foldl sgStep ((0 : ℚ), (0 : ℕ))
    if 0 < tc.2 then
      let v := tc.1 / (tc.2 : ℚ)
      (v, { self with specificGravityValue := v })
    else (self.specificGravityValue, self)

/-- Embedding of `CriticalSurfaceTension.calculate_from_owens_wendt`: the
closed-form two-liquid Owens-Wendt solve with the fixed probe constants of the
source (water 72.8 / 21.8 / 51.0, diiodomethane 50.8 fully dispersive); angles
are given in degrees and converted to radians by `math.radians`. -/
noncomputable def CriticalSurfaceTension.calculate_from_owens_wendt
    (self : CriticalSurfaceTension) (water_angle diiodomethane_angle : ℝ) :
    (ℝ × ℝ × ℝ) × CriticalSurfaceTension :=
  let water_total : ℝ := 72.8
  let water_d : ℝ := 21.8
  let water_p : ℝ := 51.0
  let diio_total : ℝ := 50.8
  let diio_d : ℝ := 50.8
  let theta_w := water_angle * (Real.pi / 180)
  let theta_d := diiodomethane_angle * (Real.pi / 180)
  let dispersive := ((diio_total * (1 + Real.cos theta_d)) / (2 * Real.sqrt diio_d)) ^ 2
  let num := water_total * (1 + Real.cos theta_w) - 2 * Real.sqrt (dispersive * water_d)
  let polar := (num / (2 * Real.sqrt water_p)) ^ 2
  let total := dispersive + polar
  ((total, dispersive, polar),
   { self with surfaceEnergyMNm := total,
               dispersiveComponent := dispersive,
               polarComponent := polar,
               calculationMethod := "Owens-Wendt" })

/-! ## Construction chain of the hardness family

Python resolves `self.ABSTRACTION_LEVEL` dynamically through `type(self)`, so
every `self.abstractionLevel = self.ABSTRACTION_LEVEL` statement in the
`__init__` chain assigns the concrete class's constant.  Each embedded
initializer therefore takes the dynamically-resolved constant `dynLevel` as a
parameter, and the public entry point of a concrete class fixes `dynLevel` to
that class's own constant.  Each initializer returns the updated state together
with the list of values assigned to `abstractionLevel`, in program order. -/

/-- Class constant `Hardness.ABSTRACTION_LEVEL` (level 1). -/
def Hardness.ABSTRACTION_LEVEL : ℕ := 1

/-- Class constant `HardnessScale.ABSTRACTION_LEVEL` (level 2). -/
def HardnessScale.ABSTRACTION_LEVEL : ℕ := 2

/-- Class constant `ShoreMeasurement.ABSTRACTION_LEVEL` (level 3). -/
def ShoreMeasurement.ABSTRACTION_LEVEL : ℕ := 3

/-- State of a `ShoreMeasurement` instance (level 3, raw datapoint of the
hardness family); carries every attribute assigned in its `__init__` chain. -/
structure ShoreMeasurement where
  id : String
  name : String
  description : String
  deviceId : String
  materialId : String
  categoryDescription : String
  abstractionLevel : ℕ
  hardnessValue : ℚ
  scale : String
  temperature : ℚ
  measurementDate : String
  notes : String
  hardnessScaleId : String
  sequenceNumber : ℤ
  hardnessReading : ℚ
  shoreType : String
  readingTime : ℚ
  sampleThickness : ℚ
  locationOnSample : String
  operator : String
  equipment : String
  openSourceImplementationExists : Bool
deriving DecidableEq

/-- A pre-`__init__` object state (a fresh Python object has no attributes;
every field listed here is assigned before the constructor returns or is
irrelevant to the claims). -/
def ShoreMeasurement.blank : ShoreMeasurement :=
  ⟨"", "", "", "", "", "", 0, 0, "", 0, "", "", "", 0, 0, "", 0, 0, "", "", "", true⟩

/-- Embedding of `Hardness.__init__` running on a `ShoreMeasurement` object:
the `MechanicalProperty` / `PropertyCategory` / `MaterialProperty` chain
assigns `name`, `description`, `deviceId`, `materialId`,
`categoryDescription`, then `Hardness.__init__` assigns
`self.abstractionLevel = self.ABSTRACTION_LEVEL` (dynamically resolved). -/
def Hardness.initShore (dynLevel : ℕ) (name description materialId : String)
    (self : ShoreMeasurement) : ShoreMeasurement × List ℕ :=
  let self := { self with name := name, description := description,
                          deviceId := "", materialId := materialId,
                          categoryDescription := "" }
  ({ self with abstractionLevel := dynLevel }, [dynLevel])

/-- Embedding of `HardnessScale.__init__` running on a `ShoreMeasurement`
object: calls `Hardness.__init__`, assigns the class-specific fields, then
assigns the dynamically-resolved abstraction-level constant. -/
def HardnessScale.initShore (dynLevel : ℕ) (materialId : String)
    (hardnessValue : ℚ) (scale : String) (temperature : ℚ)
    (measurementDate notes : String) (self : ShoreMeasurement) :
    ShoreMeasurement × List ℕ :=
  let r := Hardness.initShore dynLevel "Hardness Scale"
    ("Derived hardness on " ++ scale ++ " scale") materialId self
  let self := { r.1 with hardnessValue := hardnessValue, scale := scale,
                         temperature := temperature,
                         measurementDate := measurementDate, notes := notes }
  ({ self with abstractionLevel := dynLevel }, r.2 ++ [dynLevel])

/-- Embedding of `ShoreMeasurement.__init__` body (given the dynamic constant):
calls `HardnessScale.__init__` with `hardnessValue=hardnessReading` and
`scale=f'Shore {shoreType}'`, assigns the datapoint fields, then assigns the
dynamically-resolved abstraction-level constant. -/
def ShoreMeasurement.init (dynLevel : ℕ)
    (materialId hardnessScaleId : String) (sequenceNumber : ℤ)
    (hardnessReading : ℚ) (shoreType : String)
    (readingTime sampleThickness : ℚ) (locationOnSample : String)
    (temperature : ℚ) (measurementDate operator equipment notes : String)
    (openSourceImplementationExists : Bool) (self : ShoreMeasurement) :
    ShoreMeasurement × List ℕ :=
  let r := HardnessScale.initShore dynLevel materialId hardnessReading
    ("Shore " ++ shoreType) temperature measurementDate notes self
  let self := { r.1 with hardnessScaleId := hardnessScaleId,
                         sequenceNumber := sequenceNumber,
                         hardnessReading := hardnessReading,
                         shoreType := shoreType, readingTime := readingTime,
                         sampleThickness := sampleThickness,
                         locationOnSample := locationOnSample,
                         operator := operator, equipment := equipment,
                         openSourceImplementationExists := openSourceImplementationExists }
  ({ self with abstractionLevel := dynLevel }, r.2 ++ [dynLevel])

/-- Constructing a `ShoreMeasurement`: `type(self)` is `ShoreMeasurement`, so
the dynamic constant is `ShoreMeasurement.ABSTRACTION_LEVEL`. -/
def ShoreMeasurement.mkNew (id materialId hardnessScaleId : String)
    (sequenceNumber : ℤ) (hardnessReading : ℚ) (shoreType : String)
    (readingTime sampleThickness : ℚ) (locationOnSample : String)
    (temperature : ℚ) (measurementDate operator equipment notes : String)
    (openSourceImplementationExists : Bool) : ShoreMeasurement × List ℕ :=
  ShoreMeasurement.init ShoreMeasurement.ABSTRACTION_LEVEL materialId
    hardnessScaleId sequenceNumber hardnessReading shoreType readingTime
    sampleThickness locationOnSample temperature measurementDate operator
    equipment notes openSourceImplementationExists
    { ShoreMeasurement.blank with id := id }

/-- A pre-`__init__` `HardnessScale` object state. -/
def HardnessScale.blank : HardnessScale :=
  ⟨"", "", "", "", "", "", 0, 0, "", 0, "", ""⟩

/-- Embedding of `Hardness.__init__` running on a `HardnessScale` object. -/
def Hardness.init (dynLevel : ℕ) (name description materialId : String)
    (self : HardnessScale) : HardnessScale × List ℕ :=
  let self := { self with name := name, description := description,
                          deviceId := "", materialId := materialId,
                          categoryDescription := "" }
  ({ self with abstractionLevel := dynLevel }, [dynLevel])

/-- Embedding of `HardnessScale.__init__` body running on a `HardnessScale`
object (given the dynamic constant). -/
def HardnessScale.init (dynLevel : ℕ) (materialId : String)
    (hardnessValue : ℚ) (scale : String) (temperature : ℚ)
    (measurementDate notes : String) (self : HardnessScale) :
    HardnessScale × List ℕ :=
  let r := Hardness.init dynLevel "Hardness Scale"
    ("Derived hardness on " ++ scale ++ " scale") materialId self
  let self := { r.1 with hardnessValue := hardnessValue, scale := scale,
                         temperature := temperature,
                         measurementDate := measurementDate, notes := notes }
  ({ self with abstractionLevel := dynLevel }, r.2 ++ [dynLevel])

/-- Constructing a `HardnessScale` directly: the dynamic constant is
`HardnessScale.ABSTRACTION_LEVEL`. -/
def HardnessScale.mkNew (id materialId : String) (hardnessValue : ℚ)
    (scale : String) (temperature : ℚ) (measurementDate notes : String) :
    HardnessScale × List ℕ :=
  HardnessScale.init HardnessScale.ABSTRACTION_LEVEL materialId hardnessValue
    scale temperature measurementDate notes
    { HardnessScale.blank with id := id }

/-! ## Registry / factory -/

/-- The key set of the `registered_classes` mapping built by
`register_materials_science_defaults`, in source order. -/
def registered_classes : List String :=
  ["Material", "MaterialProperty", "MaterialResolution", "MaterialPurpose",
   "MaterialRelatedDevice",
   "PropertyCategory", "RheologicalProperty", "MechanicalProperty",
   "SurfaceProperty", "ThermalProperty",
   "Viscosity", "KrebsViscosity", "StormerViscosity",
   "Elasticity", "StorageModulus", "DMAMeasurement", "RheometerMeasurement",
   "MeltFlowIndex", "MFIValue", "MFIMeasurement",
   "Hardness", "HardnessScale", "ShoreMeasurement",
   "TensileStrength", "UltimateTensileStrength", "TensileMeasurement",
   "SolidSurfaceEnergy", "CriticalSurfaceTension", "ContactAngleMeasurement",
   "LiquidSurfaceTension", "SurfaceTensionValue", "WilhelmyMeasurement",
   "MeltingPoint", "MeltingPointValue", "DSCMeltingMeasurement",
   "GlassTransition", "GlassTransitionTemp", "DMAGlassTransitionMeasurement",
   "SmokingPoint", "SmokingPointValue", "SmokingPointMeasurement",
   "ThermalExpansion", "CoefficientOfThermalExpansion", "TMAMeasurement",
   "SpecificGravity", "ReferentialSpecificGravity",
   "PycnometerMeasurement", "HydrometerMeasurement", "DensityMeterMeasurement",
   "ResolutionCategory", "ExperimentalResolution", "ContinuumResolution",
   "MesoscaleResolution", "AtomisticResolution", "QuantumResolution",
   "RawExperimentalMaterial", "RulesOfMixturesExperimentalMaterial",
   "ConsistentFiniteElementMaterial", "StochasticFiniteElementMaterial",
   "ChosenMaterial", "RangeMaterial",
   "CoarsegrainedMolecularDynamicsMaterial", "MolecularDynamicsMaterial",
   "DensityFunctionalMaterial",
   "PurposeCategory", "CNCMachinable", "ThreeDimensionalPrintable",
   "MoldFabricationPurpose",
   "ThreeDimensionalPrintedMoldMaterial", "FDMPrintedMoldMaterial",
   "SLAPrintedMoldMaterial", "SLSPrintedMoldMaterial",
   "CNCMachinedMoldMaterial", "MilledMoldMaterial", "TurnedMoldMaterial",
   "GeopolymerConcreteMoldMaterial",
   "GeopolymerThermalResistantConcreteMoldMaterial",
   "DeviceCategory",
   "ThreeDimensionalPrintingDevice", "FDMPrinter", "SLAPrinter", "SLSPrinter",
   "CNCMill", "ThreeAxisMill", "FiveAxisMill", "CNCLathe",
   "MaterialTestingDevice", "Viscometer", "HardnessTester",
   "TensileTestingMachine", "ThermalAnalyzer",
   "ReferenceMaterial", "PropertyValueSource", "PrintableReferenceMaterial",
   "PLA", "ABS", "PETG", "Nylon", "TPU", "PHA",
   "RawMaterial",
   "MaterialSourcing", "NaturalSourcing", "OpenSourceLocalSourcing",
   "CommercialSourcing",
   "DataProvenance", "DataSource",
   "MaterialAdditive", "PropertyEffect", "AdditiveCompatibility",
   "Compatibilizer",
   "TargetMaterialProfile", "PropertyTarget",
   "Formulation", "FormulationComponent", "FormulationIntent"]

/-- Errors of the registry/factory path: `keyError` is what a lookup of an
unknown key in the name-to-type dictionary raises; `typeError` is the error
class Python raises for a constructor-field problem on a known key. -/
inductive RegistryError where
  | keyError (key : String)
  | typeError (field : String)
deriving DecidableEq

/-- An instantiated object: the concrete class name and the keyword fields the
constructor received, verbatim. -/
structure CreatedInstance where
  className : String
  fields : List (String × String)
deriving DecidableEq

/-- Modelled from the spec: `create(key, **fields)` — the generic factory
instantiation through the name-to-type mapping.  Only the mapping itself
(`registered_classes`) and its bulk-loading caller (`seed_initial_data`, which
does `cls(**record)`) are in the source; the generic `create` entry point is
the hosting framework's.  Per the spec, an unknown key fails with the lookup
error, and for a known key all supplied keyword fields reach the constructor
unmodified (every constructor parameter has a default, so no field is
required). -/
def create (key : String) (fields : List (String × String)) :
    Except RegistryError CreatedInstance :=
  if registered_classes.contains key then .ok ⟨key, fields⟩
  else .error (.keyError key)

/-! ## Specification-side formulas

These definitions transcribe the claims' / spec's wording, to be compared with
the functions embedded from the source. -/

/-- A Stormer reading given as a `(grams, revolutions)` pair, i.e. a record
that definitely has both attributes. -/
def mkStormerDatapoint (p : ℚ × ℚ) : StormerDatapoint :=
  ⟨some p.1, some p.2⟩

/-- Spec-side Krebs formula: normalize each reading as
`grams * (200 / revolutions)`, average the normalized values, then
`KU = average * 2.08 + 15.8`. -/
def krebsKU_spec (readings : List (ℚ × ℚ)) : ℚ :=
  ((readings.map (fun p => p.1 * (200 / p.2))).sum / (readings.length : ℚ))
    * 2.08 + 15.8

/-- Spec-side list of stresses of the readings that have a positive `forceN`
attribute: `forceN / cross_section_area_mm2` for each of them. -/
def validStresses (measurements : List TensileDatapoint)
    (cross_section_area_mm2 : ℚ) : List ℚ :=
  ((measurements.filterMap (fun m => m.forceN)).filter
    (fun f => decide (0 < f))).map (fun f => f / cross_section_area_mm2)

/-- Spec-side CTE two-endpoint-slope formula in ppm/°C:
`(ΔdimensionChangeMicron / (original_length_mm * 1000)) / ΔT * 1e6`. -/
def cteFormula_spec (first lastm : TMADatapoint) (original_length_mm : ℚ) : ℚ :=
  ((lastm.dimensionChangeMicron - first.dimensionChangeMicron)
      / (original_length_mm * 1000))
    / (lastm.temperatureC - first.temperatureC) * 1000000

/-- Spec-side Owens-Wendt dispersive component
`γSd = ((50.8 * (1 + cos θ_diio)) / (2 * √50.8))²` (angle in degrees). -/
noncomputable def owensWendtDispersive_spec (diiodomethane_angle : ℝ) : ℝ :=
  ((50.8 * (1 + Real.cos (diiodomethane_angle * (Real.pi / 180))))
    / (2 * Real.sqrt 50.8)) ^ 2

/-- Spec-side Owens-Wendt polar component
`γSp = ((72.8 * (1 + cos θ_water) - 2 * √(γSd * 21.8)) / (2 * √51.0))²`
(angles in degrees). -/
noncomputable def owensWendtPolar_spec (water_angle diiodomethane_angle : ℝ) : ℝ :=
  ((72.8 * (1 + Real.cos (water_angle * (Real.pi / 180)))
      - 2 * Real.sqrt (owensWendtDispersive_spec diiodomethane_angle * 21.8))
    / (2 * Real.sqrt 51.0)) ^ 2

/-! ## Record validity predicates (Bool, so concrete instances can be decided) -/

/-- The record is skipped by `HardnessScale.calculate_from_measurements`: it
lacks the `hardnessReading` attribute or its value is non-positive. -/
def HardnessDatapoint.isSkipped (m : HardnessDatapoint) : Bool :=
  match m.hardnessReading with
  | none => true
  | some r => decide (r ≤ 0)

/-- The record is skipped by `UltimateTensileStrength.calculate_from_measurements`:
it lacks the `forceN` attribute or its value is non-positive. -/
def TensileDatapoint.isSkipped (m : TensileDatapoint) : Bool :=
  match m.forceN with
  | none => true
  | some f => decide (f ≤ 0)

/-- The record is skipped by `ReferentialSpecificGravity.calculate_from_measurements`:
it lacks the `specificGravityValue` attribute or its value is non-positive. -/
def SpecificGravityDatapoint.isSkipped (m : SpecificGravityDatapoint) : Bool :=
  match m.specificGravityValue with
  | none => true
  | some sg => decide (sg ≤ 0)

/-- The record is skipped (without raising) by
`KrebsViscosity.calculate_from_stormer_measurements`: both attributes it
inspects are present and the first inspected one that fails the guard is
non-positive (`grams ≤ 0`, or `grams > 0` and `revolutions ≤ 0`). -/
def StormerDatapoint.isSkipped (m : StormerDatapoint) : Bool :=
  match m.grams with
  | none => false
  | some g =>
    if g ≤ 0 then true
    else
      match m.revolutions with
      | none => false
      | some r => decide (r ≤ 0)

/-- The record is skipped (without raising) by
`MFIValue.calculate_from_measurements`: `extrudateMass ≤ 0`, or
`extrudateMass > 0` and `extrusionTime ≤ 0`. -/
def MFIDatapoint.isSkipped (m : MFIDatapoint) : Bool :=
  match m.extrudateMass with
  | none => false
  | some mass =>
    if mass ≤ 0 then true
    else
      match m.extrusionTime with
      | none => false
      | some t => decide (t ≤ 0)

/-! ## Helper lemmas: frame conditions

Each derivation method touches at most the fields its source assigns; these
lemmas characterize the updated state exactly and are shared by several of the
claim theorems below. -/

/-- The method `HardnessScale.calculate_from_measurements` only ever rewrites
`hardnessValue`, with the returned value. -/
lemma hardness_calculate_frame (s : HardnessScale)
    (ms : List HardnessDatapoint) :
    (s.calculate_from_measurements ms).2 =
      { s with hardnessValue := (s.calculate_from_measurements ms).1 } := by
  unfold HardnessScale.calculate_from_measurements
  split
  · rfl
  · dsimp only
    split <;> rfl

/-- The method `ReferentialSpecificGravity.calculate_from_measurements` only ever rewrites
`specificGravityValue`, with the returned value. -/
lemma sg_calculate_frame (s : ReferentialSpecificGravity)
    (ms : List SpecificGravityDatapoint) :
    (s.calculate_from_measurements ms).2 =
      { s with specificGravityValue := (s.calculate_from_measurements ms).1 } := by
  unfold ReferentialSpecificGravity.calculate_from_measurements
  split
  · rfl
  · dsimp only
    split <;> rfl

/-- The method `UltimateTensileStrength.calculate_from_measurements` only ever rewrites
`utsMPa`, with the returned value. -/
lemma uts_calculate_frame (s : UltimateTensileStrength)
    (ms : List TensileDatapoint) (area : ℚ) :
    (s.calculate_from_measurements ms area).2 =
      { s with utsMPa := (s.calculate_from_measurements ms area).1 } := by
  unfold UltimateTensileStrength.calculate_from_measurements
  split
  · rfl
  · split <;> rfl

/-- The method `KrebsViscosity.calculate_from_stormer_measurements` either raises, or only
rewrites `viscosityKU`, with the returned value. -/
lemma krebs_calculate_frame (s : KrebsViscosity) (ms : List StormerDatapoint) :
    (∃ e, s.calculate_from_stormer_measurements ms = .error e) ∨
    (∃ v, s.calculate_from_stormer_measurements ms =
      .ok (v, { s with viscosityKU := v })) := by
  unfold KrebsViscosity.calculate_from_stormer_measurements
  split
  · exact .inr ⟨s.viscosityKU, rfl⟩
  · split
    · exact .inl ⟨_, rfl⟩
    · split
      · exact .inr ⟨_, rfl⟩
      · exact .inr ⟨s.viscosityKU, rfl⟩

/-- The method `MFIValue.calculate_from_measurements` either raises, or only rewrites
`mfiGramsPer10Min`, with the returned value. -/
lemma mfi_calculate_frame (s : MFIValue) (ms : List MFIDatapoint) :
    (∃ e, s.calculate_from_measurements ms = .error e) ∨
    (∃ v, s.calculate_from_measurements ms =
      .ok (v, { s with mfiGramsPer10Min := v })) := by
  unfold MFIValue.calculate_from_measurements
  split
  · exact .inr ⟨s.mfiGramsPer10Min, rfl⟩
  · split
    · exact .inl ⟨_, rfl⟩
    · split
      · exact .inr ⟨_, rfl⟩
      · exact .inr ⟨s.mfiGramsPer10Min, rfl⟩

/-- The method `CoefficientOfThermalExpansion.calculate_from_measurements` only ever
rewrites `ctePpmPerC` (with the returned value), `temperatureRangeLowC` and
`temperatureRangeHighC`. -/
lemma cte_calculate_frame (s : CoefficientOfThermalExpansion)
    (ms : List TMADatapoint) (L0 : ℚ) :
    ∃ lo hi, (s.calculate_from_measurements ms L0).2 =
      { s with ctePpmPerC := (s.calculate_from_measurements ms L0).1,
               temperatureRangeLowC := lo, temperatureRangeHighC := hi } := by
  unfold CoefficientOfThermalExpansion.calculate_from_measurements
  split
  · exact ⟨s.temperatureRangeLowC, s.temperatureRangeHighC, rfl⟩
  · split
    · exact ⟨s.temperatureRangeLowC, s.temperatureRangeHighC, rfl⟩
    · split
      · exact ⟨s.temperatureRangeLowC, s.temperatureRangeHighC, rfl⟩
      · split
        · dsimp only
          split
          · exact ⟨_, _, rfl⟩
          · exact ⟨s.temperatureRangeLowC, s.temperatureRangeHighC, rfl⟩
        · exact ⟨s.temperatureRangeLowC, s.temperatureRangeHighC, rfl⟩

/-- The method `CriticalSurfaceTension.calculate_from_owens_wendt` rewrites exactly the
three energy components and the `calculationMethod` tag, with the returned
values. -/
lemma cst_calculate_frame (s : CriticalSurfaceTension) (wa da : ℝ) :
    (s.calculate_from_owens_wendt wa da).2 =
      { s with surfaceEnergyMNm := (s.calculate_from_owens_wendt wa da).1.1,
               dispersiveComponent := (s.calculate_from_owens_wendt wa da).1.2.1,
               polarComponent := (s.calculate_from_owens_wendt wa da).1.2.2,
               calculationMethod := "Owens-Wendt" } := rfl

/-! ## Helper lemmas: skipped records -/

/-- A record without a positive `hardnessReading` leaves the hardness
accumulator unchanged. -/
lemma hardnessStep_skip (acc : ℚ × ℕ) (m : HardnessDatapoint)
    (hm : m.isSkipped = true) : hardnessStep acc m = acc := by
  unfold hardnessStep
  unfold HardnessDatapoint.isSkipped at hm
  cases h : m.hardnessReading with
  | none => rfl
  | some r =>
    rw [h] at hm
    simp only [decide_eq_true_eq] at hm
    simp [not_lt.mpr hm]

/-- A record without a positive `specificGravityValue` leaves the
specific-gravity accumulator unchanged. -/
lemma sgStep_skip (acc : ℚ × ℕ) (m : SpecificGravityDatapoint)
    (hm : m.isSkipped = true) : sgStep acc m = acc := by
  unfold sgStep
  unfold SpecificGravityDatapoint.isSkipped at hm
  cases h : m.specificGravityValue with
  | none => rfl
  | some sg =>
    rw [h] at hm
    simp only [decide_eq_true_eq] at hm
    simp [not_lt.mpr hm]

/-- A record without a positive `forceN` leaves the running maximum
unchanged. -/
lemma utsStep_skip (area : ℚ) (acc : ℚ) (m : TensileDatapoint)
    (hm : m.isSkipped = true) : utsStep area acc m = acc := by
  unfold utsStep
  unfold TensileDatapoint.isSkipped at hm
  cases h : m.forceN with
  | none => rfl
  | some f =>
    rw [h] at hm
    simp only [decide_eq_true_eq] at hm
    simp [not_lt.mpr hm]

/-- A Stormer record with its guarded fields present but non-positive is
passed over by the Krebs loop. -/
lemma krebsLoop_cons_skip (bad : StormerDatapoint) (post : List StormerDatapoint)
    (acc : ℚ × ℕ) (hbad : bad.isSkipped = true) :
    krebsLoop (bad :: post) acc = krebsLoop post acc := by
  unfold StormerDatapoint.isSkipped at hbad
  cases hg : bad.grams with
  | none => rw [hg] at hbad; exact absurd hbad (by simp)
  | some g =>
    rw [hg] at hbad
    dsimp only at hbad
    by_cases hg0 : g ≤ 0
    · simp [krebsLoop, hg, not_lt.mpr hg0]
    · rw [if_neg hg0] at hbad
      cases hr : bad.revolutions with
      | none => rw [hr] at hbad; exact absurd hbad (by simp)
      | some r =>
        rw [hr] at hbad
        dsimp only at hbad
        simp only [decide_eq_true_eq] at hbad
        simp [krebsLoop, hg, hr, not_lt.mpr hbad, not_le.mp hg0]

/-- An MFI record with its guarded fields present but non-positive is passed
over by the MFI loop. -/
lemma mfiLoop_cons_skip (bad : MFIDatapoint) (post : List MFIDatapoint)
    (acc : ℚ × ℕ) (hbad : bad.isSkipped = true) :
    mfiLoop (bad :: post) acc = mfiLoop post acc := by
  unfold MFIDatapoint.isSkipped at hbad
  cases hg : bad.extrudateMass with
  | none => rw [hg] at hbad; exact absurd hbad (by simp)
  | some mass =>
    rw [hg] at hbad
    dsimp only at hbad
    by_cases hg0 : mass ≤ 0
    · simp [mfiLoop, hg, not_lt.mpr hg0]
    · rw [if_neg hg0] at hbad
      cases hr : bad.extrusionTime with
      | none => rw [hr] at hbad; exact absurd hbad (by simp)
      | some t =>
        rw [hr] at hbad
        dsimp only at hbad
        simp only [decide_eq_true_eq] at hbad
        simp [mfiLoop, hg, hr, not_lt.mpr hbad, not_le.mp hg0]

/-- Removing a skipped record anywhere in the list does not change the Krebs
loop's outcome. -/
lemma krebsLoop_skip (pre post : List StormerDatapoint) (bad : StormerDatapoint)
    (hbad : bad.isSkipped = true) (acc : ℚ × ℕ) :
    krebsLoop (pre ++ bad :: post) acc = krebsLoop (pre ++ post) acc := by
  induction pre generalizing acc with
  | nil => simpa using krebsLoop_cons_skip bad post acc hbad
  | cons m pre ih =>
    simp only [List.cons_append]
    unfold krebsLoop
    cases hg : m.grams with
    | none => rfl
    | some g =>
      dsimp only
      by_cases hg0 : 0 < g
      · rw [if_pos hg0, if_pos hg0]
        cases hr : m.revolutions with
        | none => rfl
        | some r =>
          dsimp only
          by_cases hr0 : 0 < r
          · rw [if_pos hr0, if_pos hr0]; exact ih _
          · rw [if_neg hr0, if_neg hr0]; exact ih _
      · rw [if_neg hg0, if_neg hg0]; exact ih _

/-- Removing a skipped record anywhere in the list does not change the MFI
loop's outcome. -/
lemma mfiLoop_skip (pre post : List MFIDatapoint) (bad : MFIDatapoint)
    (hbad : bad.isSkipped = true) (acc : ℚ × ℕ) :
    mfiLoop (pre ++ bad :: post) acc = mfiLoop (pre ++ post) acc := by
  induction pre generalizing acc with
  | nil => simpa using mfiLoop_cons_skip bad post acc hbad
  | cons m pre ih =>
    simp only [List.cons_append]
    unfold mfiLoop
    cases hg : m.extrudateMass with
    | none => rfl
    | some mass =>
      dsimp only
      by_cases hg0 : 0 < mass
      · rw [if_pos hg0, if_pos hg0]
        cases hr : m.extrusionTime with
        | none => rfl
        | some t =>
          dsimp only
          by_cases hr0 : 0 < t
          · rw [if_pos hr0, if_pos hr0]; exact ih _
          · rw [if_neg hr0, if_neg hr0]; exact ih _
      · rw [if_neg hg0, if_neg hg0]; exact ih _

/-- Folding over a list of skipped records leaves the hardness accumulator
unchanged. -/
lemma foldl_hardnessStep_all_skipped (ms : List HardnessDatapoint)
    (h : ∀ m ∈ ms, m.isSkipped = true) (acc : ℚ × ℕ) :
    ms.foldl hardnessStep acc = acc := by
  induction ms generalizing acc with
  | nil => rfl
  | cons m ms ih =>
    rw [List.foldl_cons, hardnessStep_skip acc m (h m (List.mem_cons_self m ms))]
    exact ih (fun x hx => h x (List.mem_cons_of_mem m hx)) acc

/-- Folding over a list of skipped records leaves the specific-gravity
accumulator unchanged. -/
lemma foldl_sgStep_all_skipped (ms : List SpecificGravityDatapoint)
    (h : ∀ m ∈ ms, m.isSkipped = true) (acc : ℚ × ℕ) :
    ms.foldl sgStep acc = acc := by
  induction ms generalizing acc with
  | nil => rfl
  | cons m ms ih =>
    rw [List.foldl_cons, sgStep_skip acc m (h m (List.mem_cons_self m ms))]
    exact ih (fun x hx => h x (List.mem_cons_of_mem m hx)) acc

/-- Folding over a list of skipped records leaves the running maximum
unchanged. -/
lemma foldl_utsStep_all_skipped (area : ℚ) (ms : List TensileDatapoint)
    (h : ∀ m ∈ ms, m.isSkipped = true) (acc : ℚ) :
    ms.foldl (utsStep area) acc = acc := by
  induction ms generalizing acc with
  | nil => rfl
  | cons m ms ih =>
    rw [List.foldl_cons, utsStep_skip area acc m (h m (List.mem_cons_self m ms))]
    exact ih (fun x hx => h x (List.mem_cons_of_mem m hx)) acc

/-- The Krebs loop over a list of skipped records returns the accumulator. -/
lemma krebsLoop_all_skipped (ms : List StormerDatapoint)
    (h : ∀ m ∈ ms, m.isSkipped = true) (acc : ℚ × ℕ) :
    krebsLoop ms acc = .ok acc := by
  induction ms generalizing acc with
  | nil => rfl
  | cons m ms ih =>
    rw [krebsLoop_cons_skip m ms acc (h m (List.mem_cons_self m ms))]
    exact ih (fun x hx => h x (List.mem_cons_of_mem m hx)) acc

/-- The MFI loop over a list of skipped records returns the accumulator. -/
lemma mfiLoop_all_skipped (ms : List MFIDatapoint)
    (h : ∀ m ∈ ms, m.isSkipped = true) (acc : ℚ × ℕ) :
    mfiLoop ms acc = .ok acc := by
  induction ms generalizing acc with
  | nil => rfl
  | cons m ms ih =>
    rw [mfiLoop_cons_skip m ms acc (h m (List.mem_cons_self m ms))]
    exact ih (fun x hx => h x (List.mem_cons_of_mem m hx)) acc

/-- Removing a skipped record does not change the hardness fold. -/
lemma foldl_hardnessStep_skip (pre post : List HardnessDatapoint)
    (bad : HardnessDatapoint) (hbad : bad.isSkipped = true) (acc : ℚ × ℕ) :
    (pre ++ bad :: post).foldl hardnessStep acc =
      (pre ++ post).foldl hardnessStep acc := by
  rw [List.foldl_append, List.foldl_append, List.foldl_cons,
    hardnessStep_skip _ bad hbad]

/-- Removing a skipped record does not change the specific-gravity fold. -/
lemma foldl_sgStep_skip (pre post : List SpecificGravityDatapoint)
    (bad : SpecificGravityDatapoint) (hbad : bad.isSkipped = true)
    (acc : ℚ × ℕ) :
    (pre ++ bad :: post).foldl sgStep acc = (pre ++ post).foldl sgStep acc := by
  rw [List.foldl_append, List.foldl_append, List.foldl_cons,
    sgStep_skip _ bad hbad]

/-- Removing a skipped record does not change the running-maximum fold. -/
lemma foldl_utsStep_skip (area : ℚ) (pre post : List TensileDatapoint)
    (bad : TensileDatapoint) (hbad : bad.isSkipped = true) (acc : ℚ) :
    (pre ++ bad :: post).foldl (utsStep area) acc =
      (pre ++ post).foldl (utsStep area) acc := by
  rw [List.foldl_append, List.foldl_append, List.foldl_cons,
    utsStep_skip area _ bad hbad]

/-- The method `HardnessScale.calculate_from_measurements` gives the same result with or
without a skipped record anywhere in its input. -/
lemma hardness_calculate_skip (s : HardnessScale)
    (pre post : List HardnessDatapoint) (bad : HardnessDatapoint)
    (hbad : bad.isSkipped = true) :
    s.calculate_from_measurements (pre ++ bad :: post) =
      s.calculate_from_measurements (pre ++ post) := by
  unfold HardnessScale.calculate_from_measurements
  by_cases hpp : pre ++ post = []
  · obtain ⟨hpre, hpost⟩ := List.append_eq_nil.mp hpp
    subst hpre; subst hpost
    have hfold : List.foldl hardnessStep ((0 : ℚ), (0 : ℕ)) [bad] =
        ((0 : ℚ), (0 : ℕ)) :=
      foldl_hardnessStep_all_skipped [bad]
        (by intro m hm; rw [List.mem_singleton.mp hm]; exact hbad) _
    simp only [List.nil_append, List.isEmpty_nil, List.isEmpty_cons,
      Bool.false_eq_true, if_false, if_true, hfold]
    norm_num
  · have h1 : (pre ++ bad :: post).isEmpty = false := by cases pre <;> simp
    have h2 : (pre ++ post).isEmpty = false := by simp [hpp]
    simp only [h1, h2, Bool.false_eq_true, if_false]
    rw [foldl_hardnessStep_skip pre post bad hbad]

/-- The method `ReferentialSpecificGravity.calculate_from_measurements` gives the same
result with or without a skipped record anywhere in its input. -/
lemma sg_calculate_skip (s : ReferentialSpecificGravity)
    (pre post : List SpecificGravityDatapoint) (bad : SpecificGravityDatapoint)
    (hbad : bad.isSkipped = true) :
    s.calculate_from_measurements (pre ++ bad :: post) =
      s.calculate_from_measurements (pre ++ post) := by
  unfold ReferentialSpecificGravity.calculate_from_measurements
  by_cases hpp : pre ++ post = []
  · obtain ⟨hpre, hpost⟩ := List.append_eq_nil.mp hpp
    subst hpre; subst hpost
    have hfold : List.foldl sgStep ((0 : ℚ), (0 : ℕ)) [bad] =
        ((0 : ℚ), (0 : ℕ)) :=
      foldl_sgStep_all_skipped [bad]
        (by intro m hm; rw [List.mem_singleton.mp hm]; exact hbad) _
    simp only [List.nil_append, List.isEmpty_nil, List.isEmpty_cons,
      Bool.false_eq_true, if_false, if_true, hfold]
    norm_num
  · have h1 : (pre ++ bad :: post).isEmpty = false := by cases pre <;> simp
    have h2 : (pre ++ post).isEmpty = false := by simp [hpp]
    simp only [h1, h2, Bool.false_eq_true, if_false]
    rw [foldl_sgStep_skip pre post bad hbad]

/-- The method `UltimateTensileStrength.calculate_from_measurements` gives the same
result with or without a skipped record anywhere in its input, provided some
other record remains (if the skipped record is the only one, its removal
changes the call from "store `0.0`" to the empty-input no-op; see the
zero-overwrite theorem). -/
lemma uts_calculate_skip (s : UltimateTensileStrength)
    (pre post : List TensileDatapoint) (bad : TensileDatapoint) (area : ℚ)
    (hne : pre ++ post ≠ []) (hbad : bad.isSkipped = true) :
    s.calculate_from_measurements (pre ++ bad :: post) area =
      s.calculate_from_measurements (pre ++ post) area := by
  unfold UltimateTensileStrength.calculate_from_measurements
  have h1 : (pre ++ bad :: post).isEmpty = false := by cases pre <;> simp
  have h2 : (pre ++ post).isEmpty = false := by simp [hne]
  by_cases harea : area ≤ 0
  · simp only [h1, h2, Bool.false_eq_true, if_false, if_pos harea]
  · simp only [h1, h2, Bool.false_eq_true, if_false, if_neg harea]
    rw [foldl_utsStep_skip area pre post bad hbad]

/-- The method `KrebsViscosity.calculate_from_stormer_measurements` gives the same result
with or without a skipped record anywhere in its input. -/
lemma krebs_calculate_skip (s : KrebsViscosity)
    (pre post : List StormerDatapoint) (bad : StormerDatapoint)
    (hbad : bad.isSkipped = true) :
    s.calculate_from_stormer_measurements (pre ++ bad :: post) =
      s.calculate_from_stormer_measurements (pre ++ post) := by
  unfold KrebsViscosity.calculate_from_stormer_measurements
  by_cases hpp : pre ++ post = []
  · obtain ⟨hpre, hpost⟩ := List.append_eq_nil.mp hpp
    subst hpre; subst hpost
    have hloop : krebsLoop [bad] (0, 0) = .ok ((0 : ℚ), (0 : ℕ)) :=
      krebsLoop_all_skipped [bad]
        (by intro m hm; rw [List.mem_singleton.mp hm]; exact hbad) _
    simp only [List.nil_append, List.isEmpty_nil, List.isEmpty_cons,
      Bool.false_eq_true, if_false, if_true, hloop]
    norm_num
  · have h1 : (pre ++ bad :: post).isEmpty = false := by cases pre <;> simp
    have h2 : (pre ++ post).isEmpty = false := by simp [hpp]
    simp only [h1, h2, Bool.false_eq_true, if_false]
    rw [krebsLoop_skip pre post bad hbad]

/-- The method `MFIValue.calculate_from_measurements` gives the same result with or
without a skipped record anywhere in its input. -/
lemma mfi_calculate_skip (s : MFIValue) (pre post : List MFIDatapoint)
    (bad : MFIDatapoint) (hbad : bad.isSkipped = true) :
    s.calculate_from_measurements (pre ++ bad :: post) =
      s.calculate_from_measurements (pre ++ post) := by
  unfold MFIValue.calculate_from_measurements
  by_cases hpp : pre ++ post = []
  · obtain ⟨hpre, hpost⟩ := List.append_eq_nil.mp hpp
    subst hpre; subst hpost
    have hloop : mfiLoop [bad] (0, 0) = .ok ((0 : ℚ), (0 : ℕ)) :=
      mfiLoop_all_skipped [bad]
        (by intro m hm; rw [List.mem_singleton.mp hm]; exact hbad) _
    simp only [List.nil_append, List.isEmpty_nil, List.isEmpty_cons,
      Bool.false_eq_true, if_false, if_true, hloop]
    norm_num
  · have h1 : (pre ++ bad :: post).isEmpty = false := by cases pre <;> simp
    have h2 : (pre ++ post).isEmpty = false := by simp [hpp]
    simp only [h1, h2, Bool.false_eq_true, if_false]
    rw [mfiLoop_skip pre post bad hbad]

/-! ## Helper lemmas: the Krebs loop on fully valid readings -/

/-- On readings with both fields present and positive, the Krebs loop
accumulates the sum of the normalized values and the count. -/
lemma krebsLoop_all_valid (readings : List (ℚ × ℚ))
    (hpos : ∀ p ∈ readings, 0 < p.1 ∧ 0 < p.2) (t : ℚ) (c : ℕ) :
    krebsLoop (readings.map mkStormerDatapoint) (t, c) =
      .ok (t + (readings.map (fun p => p.1 * (200 / p.2))).sum,
           c + readings.length) := by
  induction readings generalizing t c with
  | nil => simp [krebsLoop]
  | cons p ps ih =>
    obtain ⟨hg, hr⟩ := hpos p (List.mem_cons_self p ps)
    have ihs := ih (fun q hq => hpos q (List.mem_cons_of_mem p hq))
    have hstep : ∀ (rest : List StormerDatapoint) (acc : ℚ × ℕ),
        krebsLoop (mkStormerDatapoint p :: rest) acc =
          krebsLoop rest (acc.1 + p.1 * (200 / p.2), acc.2 + 1) := by
      intro rest acc
      conv_lhs => rw [krebsLoop]
      dsimp only [mkStormerDatapoint]
      rw [if_pos hg, if_pos hr]
    rw [List.map_cons, hstep, ihs]
    simp only [List.map_cons, List.sum_cons, List.length_cons]
    congr 1
    rw [Prod.ext_iff]
    refine ⟨?_, ?_⟩
    · dsimp only; ring
    · dsimp only; omega

/-! ## Helper lemmas: running maximum -/

/-- The running-maximum update of the UTS loop is `max`. -/
lemma ite_lt_eq_max (a b : ℚ) : (if a < b then b else a) = max a b := by
  by_cases h : a < b
  · rw [if_pos h, max_eq_right h.le]
  · rw [if_neg h, max_eq_left (not_lt.mp h)]

/-- A record without the `forceN` attribute contributes no stress. -/
lemma validStresses_cons_none (m : TensileDatapoint) (ms : List TensileDatapoint)
    (area : ℚ) (h : m.forceN = none) :
    validStresses (m :: ms) area = validStresses ms area := by
  simp [validStresses, List.filterMap_cons, h]

/-- A record with a positive `forceN` contributes its stress. -/
lemma validStresses_cons_pos (m : TensileDatapoint) (ms : List TensileDatapoint)
    (area f : ℚ) (h : m.forceN = some f) (h0 : 0 < f) :
    validStresses (m :: ms) area = f / area :: validStresses ms area := by
  simp [validStresses, List.filterMap_cons, h, List.filter_cons, h0]

/-- A record with a non-positive `forceN` contributes no stress. -/
lemma validStresses_cons_nonpos (m : TensileDatapoint)
    (ms : List TensileDatapoint) (area f : ℚ) (h : m.forceN = some f)
    (h0 : ¬ 0 < f) :
    validStresses (m :: ms) area = validStresses ms area := by
  simp [validStresses, List.filterMap_cons, h, List.filter_cons, h0]

/-- The UTS loop computes the running maximum of the valid stresses. -/
lemma foldl_utsStep_eq_max (area : ℚ) (ms : List TensileDatapoint) (acc : ℚ) :
    ms.foldl (utsStep area) acc = (validStresses ms area).foldl max acc := by
  induction ms generalizing acc with
  | nil => rfl
  | cons m ms ih =>
    rw [List.foldl_cons]
    cases hf : m.forceN with
    | none =>
      rw [validStresses_cons_none m ms area hf,
        show utsStep area acc m = acc by simp [utsStep, hf]]
      exact ih acc
    | some f =>
      by_cases hf0 : 0 < f
      · rw [validStresses_cons_pos m ms area f hf hf0, List.foldl_cons,
          show utsStep area acc m = max acc (f / area) by
            simp [utsStep, hf, hf0, ite_lt_eq_max]]
        exact ih _
      · rw [validStresses_cons_nonpos m ms area f hf hf0,
          show utsStep area acc m = acc by simp [utsStep, hf, hf0]]
        exact ih acc

/-- Every valid stress is positive when the cross-section area is. -/
lemma validStresses_pos (ms : List TensileDatapoint) (area : ℚ)
    (harea : 0 < area) : ∀ x ∈ validStresses ms area, 0 < x := by
  intro x hx
  unfold validStresses at hx
  obtain ⟨f, hf, rfl⟩ := List.mem_map.mp hx
  obtain ⟨hfm, hfpos⟩ := List.mem_filter.mp hf
  exact div_pos (of_decide_eq_true hfpos) harea

/-- The initial accumulator is a lower bound of a `max` fold. -/
lemma le_foldl_max (l : List ℚ) (a : ℚ) : a ≤ l.foldl max a := by
  induction l generalizing a with
  | nil => exact le_refl a
  | cons b t ih => exact le_trans (le_max_left a b) (ih (max a b))

/-- Every list member is a lower bound of a `max` fold. -/
lemma foldl_max_le_of_mem (l : List ℚ) (x : ℚ) :
    x ∈ l → ∀ a, x ≤ l.foldl max a := by
  induction l with
  | nil => intro hx; cases hx
  | cons b t ih =>
    intro hx a
    rw [List.foldl_cons]
    rcases List.mem_cons.mp hx with h | h
    · subst h; exact le_trans (le_max_right a x) (le_foldl_max t (max a x))
    · exact ih h (max a b)

/-- A `max` fold returns its initial accumulator or a list member. -/
lemma foldl_max_eq_or_mem (l : List ℚ) :
    ∀ a, l.foldl max a = a ∨ l.foldl max a ∈ l := by
  induction l with
  | nil => intro a; exact .inl rfl
  | cons b t ih =>
    intro a
    rw [List.foldl_cons]
    rcases ih (max a b) with h | h
    · rcases max_choice a b with hm | hm
      · exact .inl (h.trans hm)
      · exact .inr (by rw [h, hm]; exact List.mem_cons_self b t)
    · exact .inr (List.mem_cons_of_mem b h)

/-! ## Helper lemmas: the CTE sort -/

/-- The sorted list used by the CTE derivation is sorted by temperature. -/
lemma cteSorted_pairwise (ms : List TMADatapoint) :
    (cteSorted ms).Pairwise (fun a b => a.temperatureC ≤ b.temperatureC) := by
  have h := @List.sorted_mergeSort TMADatapoint
    (fun a b => decide (a.temperatureC ≤ b.temperatureC))
    (fun a b c hab hbc =>
      decide_eq_true (le_trans (of_decide_eq_true hab) (of_decide_eq_true hbc)))
    (fun a b => by
      rcases le_total a.temperatureC b.temperatureC with h | h <;> simp [h]) ms
  exact h.imp (fun hab => of_decide_eq_true hab)

/-- The sorted list used by the CTE derivation has the same members as the
input. -/
lemma cteSorted_mem (ms : List TMADatapoint) (x : TMADatapoint) :
    x ∈ cteSorted ms ↔ x ∈ ms :=
  (List.mergeSort_perm ms _).mem_iff

/-- The head of a temperature-sorted list bounds every member from below. -/
lemma pairwise_head?_le (l : List TMADatapoint)
    (hl : l.Pairwise (fun a b => a.temperatureC ≤ b.temperatureC))
    (a : TMADatapoint) (ha : l.head? = some a) :
    ∀ x ∈ l, a.temperatureC ≤ x.temperatureC := by
  cases l with
  | nil => cases ha
  | cons b t =>
    have hb : b = a := by simpa using ha
    subst hb
    intro x hx
    rcases List.mem_cons.mp hx with h | h
    · subst h; exact le_refl _
    · exact (List.pairwise_cons.mp hl).1 x h

/-- The last element of a temperature-sorted list bounds every member from
above. -/
lemma pairwise_le_getLast? (l : List TMADatapoint) :
    l.Pairwise (fun a b => a.temperatureC ≤ b.temperatureC) →
    ∀ b, l.getLast? = some b → ∀ x ∈ l, x.temperatureC ≤ b.temperatureC := by
  induction l with
  | nil => intro _ b hb; cases hb
  | cons c t ih =>
    intro hl b hb x hx
    cases t with
    | nil =>
      have hbc : c = b := by simpa using hb
      have hxc : x = c := by simpa using hx
      subst hbc; subst hxc; exact le_refl _
    | cons d t2 =>
      have hb2 : (d :: t2).getLast? = some b := by
        rw [← List.getLast?_cons_cons]; exact hb
      have hbmem : b ∈ d :: t2 := by
        obtain ⟨hne, rfl⟩ := List.mem_getLast?_eq_getLast hb2
        exact List.getLast_mem hne
      rcases List.mem_cons.mp hx with h | h
      · subst h; exact (List.pairwise_cons.mp hl).1 b hbmem
      · exact ih (List.pairwise_cons.mp hl).2 b hb2 x h

/-! ## Concrete sample states (used by witnesses and counterexamples) -/

/-- A concrete `HardnessScale` state. -/
def sampleHardnessScale : HardnessScale :=
  ⟨"hs-1", "Hardness Scale", "Derived hardness on Shore A scale", "", "mat-1",
   "", 2, 55, "Shore A", 23, "", ""⟩

/-- A concrete `KrebsViscosity` state. -/
def sampleKrebsViscosity : KrebsViscosity :=
  ⟨"kv-1", "Krebs Viscosity", "Derived viscosity in Krebs Units (KU)", "",
   "mat-1", "", 2, 0, 25, "", ""⟩

/-- A concrete `UltimateTensileStrength` state with a previously stored
`utsMPa` of `7`. -/
def sampleUTS : UltimateTensileStrength :=
  ⟨"uts-1", "Ultimate Tensile Strength", "Derived UTS value in MPa", "",
   "mat-1", "", 2, 7, 0, 0, 0, "Type I", 5, 23, "", ""⟩

/-- A concrete `CoefficientOfThermalExpansion` state with a previously stored
`ctePpmPerC` of `7`. -/
def sampleCTE : CoefficientOfThermalExpansion :=
  ⟨"cte-1", "Coefficient of Thermal Expansion", "Derived CTE in ppm per C",
   "", "mat-1", "", 2, 7, 25, 100, "linear", "isotropic", "TMA", 5, "", ""⟩

/-- The sample CTE state with a recognizable `temperatureRangeLowC`. -/
def sampleCTE99 : CoefficientOfThermalExpansion :=
  { sampleCTE with temperatureRangeLowC := 99 }

/-- A concrete `MFIValue` state. -/
def sampleMFI : MFIValue :=
  ⟨"mfi-1", "MFI Value", "Derived Melt Flow Index in g/10min", "", "mat-1",
   "", 2, 7, 190, 2.16, "PE", "", ""⟩

/-- A concrete `ReferentialSpecificGravity` state. -/
def sampleSG : ReferentialSpecificGravity :=
  ⟨"sg-1", "Referential Specific Gravity",
   "Specific gravity normalized against reference material", "", "mat-1", 2,
   7, "water_4C", 4, 25, "", ""⟩

/-! ## Claim theorems -/

/-- Claim C1: every derivation function called with an empty input collection
returns the already-stored derived value and leaves every field of the object
unchanged (the returned state is the input state itself). -/
theorem empty_measurements_noop :
    (∀ s : HardnessScale,
      s.calculate_from_measurements [] = (s.hardnessValue, s)) ∧
    (∀ s : KrebsViscosity,
      s.calculate_from_stormer_measurements [] = .ok (s.viscosityKU, s)) ∧
    (∀ (s : UltimateTensileStrength) (area : ℚ),
      s.calculate_from_measurements [] area = (s.utsMPa, s)) ∧
    (∀ (s : CoefficientOfThermalExpansion) (L0 : ℚ),
      s.calculate_from_measurements [] L0 = (s.ctePpmPerC, s)) ∧
    (∀ s : MFIValue,
      s.calculate_from_measurements [] = .ok (s.mfiGramsPer10Min, s)) ∧
    (∀ s : ReferentialSpecificGravity,
      s.calculate_from_measurements [] = (s.specificGravityValue, s)) :=
  ⟨fun _ => rfl, fun _ => rfl, fun _ _ => rfl, fun _ _ => rfl, fun _ => rfl,
   fun _ => rfl⟩

/-- Claim C2 (counterexample): a Stormer record lacking the `grams` attribute
is not skipped — `KrebsViscosity.calculate_from_stormer_measurements` raises
`AttributeError` on it, so a derivation call can fail on a record missing the
expected field. -/
theorem krebs_missing_field_raises :
    sampleKrebsViscosity.calculate_from_stormer_measurements
      [{ grams := none, revolutions := some 100 }] =
      .error (.attributeError "grams") := rfl

/-- Claim C2 (amended): in every derivation function, a record whose guarded
fields are present but non-positive is skipped and not counted (removing it
changes nothing; for UTS, provided another record remains).  Records missing
the expected field are skipped only by the `hasattr`-guarded derivations
(hardness, UTS, specific gravity); the Krebs and MFI derivations raise
`AttributeError` on a record missing their first guarded field. -/
theorem invalid_record_skip_amended :
    (∀ (s : HardnessScale) pre post bad, bad.isSkipped = true →
      s.calculate_from_measurements (pre ++ bad :: post) =
        s.calculate_from_measurements (pre ++ post)) ∧
    (∀ (s : ReferentialSpecificGravity) pre post bad, bad.isSkipped = true →
      s.calculate_from_measurements (pre ++ bad :: post) =
        s.calculate_from_measurements (pre ++ post)) ∧
    (∀ (s : UltimateTensileStrength) pre post bad (area : ℚ),
      pre ++ post ≠ [] → bad.isSkipped = true →
      s.calculate_from_measurements (pre ++ bad :: post) area =
        s.calculate_from_measurements (pre ++ post) area) ∧
    (∀ (s : KrebsViscosity) pre post bad, bad.isSkipped = true →
      s.calculate_from_stormer_measurements (pre ++ bad :: post) =
        s.calculate_from_stormer_measurements (pre ++ post)) ∧
    (∀ (s : MFIValue) pre post bad, bad.isSkipped = true →
      s.calculate_from_measurements (pre ++ bad :: post) =
        s.calculate_from_measurements (pre ++ post)) ∧
    (∀ (s : KrebsViscosity) (rv : Option ℚ) rest,
      s.calculate_from_stormer_measurements
        ({ grams := none, revolutions := rv } :: rest) =
        .error (.attributeError "grams")) ∧
    (∀ (s : MFIValue) (tv : Option ℚ) rest,
      s.calculate_from_measurements
        ({ extrudateMass := none, extrusionTime := tv } :: rest) =
        .error (.attributeError "extrudateMass")) := by
  refine ⟨?_, ?_, ?_, ?_, ?_, ?_, ?_⟩
  · exact fun s pre post bad hbad => hardness_calculate_skip s pre post bad hbad
  · exact fun s pre post bad hbad => sg_calculate_skip s pre post bad hbad
  · exact fun s pre post bad area hne hbad =>
      uts_calculate_skip s pre post bad area hne hbad
  · exact fun s pre post bad hbad => krebs_calculate_skip s pre post bad hbad
  · exact fun s pre post bad hbad => mfi_calculate_skip s pre post bad hbad
  · exact fun s rv rest => rfl
  · exact fun s tv rest => rfl

/-- Claim C2 (witness): concrete instances of the amended claim — a record
with a non-positive reading is dropped without effect, with another record
present the same holds for UTS, and a record without `grams` raises. -/
theorem invalid_record_skip_amended_witness :
    sampleHardnessScale.calculate_from_measurements [⟨none⟩, ⟨some 60⟩] =
      sampleHardnessScale.calculate_from_measurements [⟨some 60⟩] ∧
    sampleUTS.calculate_from_measurements [⟨some (-5)⟩, ⟨some 100⟩] 10 =
      sampleUTS.calculate_from_measurements [⟨some 100⟩] 10 ∧
    sampleKrebsViscosity.calculate_from_stormer_measurements
      [⟨none, some 100⟩] = .error (.attributeError "grams") := by
  refine ⟨?_, ?_, ?_⟩
  · exact invalid_record_skip_amended.1 sampleHardnessScale [] [⟨some 60⟩]
      ⟨none⟩ (by decide)
  · exact invalid_record_skip_amended.2.2.1 sampleUTS [] [⟨some 100⟩]
      ⟨some (-5)⟩ 10 (by decide) (by decide)
  · exact invalid_record_skip_amended.2.2.2.2.2.1 sampleKrebsViscosity
      (some 100) []

/-- Claim C3: on Stormer readings with positive `grams` and `revolutions`, the
Krebs derivation normalizes each reading as `grams * (200 / revolutions)`,
averages, and stores and returns `KU = average * 2.08 + 15.8`. -/
theorem krebs_normalize_then_mean (s : KrebsViscosity)
    (readings : List (ℚ × ℚ)) (hne : readings ≠ [])
    (hpos : ∀ p ∈ readings, 0 < p.1 ∧ 0 < p.2) :
    s.calculate_from_stormer_measurements (readings.map mkStormerDatapoint) =
      .ok (krebsKU_spec readings,
           { s with viscosityKU := krebsKU_spec readings }) := by
  unfold KrebsViscosity.calculate_from_stormer_measurements
  have hE : (readings.map mkStormerDatapoint).isEmpty = false := by
    cases readings with
    | nil => exact absurd rfl hne
    | cons a l => rfl
  simp only [hE, Bool.false_eq_true, if_false]
  rw [krebsLoop_all_valid readings hpos 0 0]
  dsimp only
  have hlen : 0 < 0 + readings.length := by
    simpa using List.length_pos.mpr hne
  rw [if_pos hlen]
  unfold krebsKU_spec
  simp only [zero_add]

/-- Claim C3 (witness): the readings `(grams=100, revolutions=100)` and
`(grams=50, revolutions=200)` normalize to 200 and 50, average 125, and give
`viscosityKU = 275.8`. -/
theorem krebs_normalize_then_mean_witness :
    sampleKrebsViscosity.calculate_from_stormer_measurements
      [⟨some 100, some 100⟩, ⟨some 50, some 200⟩] =
      .ok (275.8, { sampleKrebsViscosity with viscosityKU := 275.8 }) := by
  have h := krebs_normalize_then_mean sampleKrebsViscosity
    [(100, 100), (50, 200)] (by decide) (by decide)
  have hv : krebsKU_spec [(100, 100), (50, 200)] = 275.8 := by
    unfold krebsKU_spec
    simp only [List.map_cons, List.map_nil, List.sum_cons, List.sum_nil,
      List.length_cons, List.length_nil]
    norm_num
  rw [hv] at h
  simpa [mkStormerDatapoint] using h

/-- Claim C4: with a positive cross-section area and at least one reading
bearing a positive `forceN`, the UTS derivation stores and returns the maximum
stress `forceN / cross_section_area_mm2` over the valid readings (the peak,
not the mean). -/
theorem uts_peak_stress (s : UltimateTensileStrength)
    (ms : List TensileDatapoint) (area : ℚ) (harea : 0 < area)
    (hne : ms ≠ []) (hex : validStresses ms area ≠ []) :
    (s.calculate_from_measurements ms area).1 ∈ validStresses ms area ∧
    (∀ x ∈ validStresses ms area,
      x ≤ (s.calculate_from_measurements ms area).1) ∧
    (s.calculate_from_measurements ms area).2 =
      { s with utsMPa := (s.calculate_from_measurements ms area).1 } := by
  have hval : (s.calculate_from_measurements ms area).1 =
      (validStresses ms area).foldl max 0 := by
    unfold UltimateTensileStrength.calculate_from_measurements
    have hE : ms.isEmpty = false := by simp [hne]
    simp only [hE, Bool.false_eq_true, if_false, if_neg (not_le.mpr harea)]
    exact foldl_utsStep_eq_max area ms 0
  refine ⟨?_, ?_, uts_calculate_frame s ms area⟩
  · rw [hval]
    rcases foldl_max_eq_or_mem (validStresses ms area) 0 with h | h
    · exfalso
      cases hvs : validStresses ms area with
      | nil => exact hex hvs
      | cons v vs =>
        have hvmem : v ∈ validStresses ms area := by
          rw [hvs]; exact List.mem_cons_self v vs
        have hvpos : 0 < v := validStresses_pos ms area harea v hvmem
        have hvle : v ≤ (validStresses ms area).foldl max 0 :=
          foldl_max_le_of_mem _ v hvmem 0
        rw [h] at hvle
        exact absurd (lt_of_lt_of_le hvpos hvle) (lt_irrefl 0)
    · exact h
  · intro x hx
    rw [hval]
    exact foldl_max_le_of_mem _ x hx 0

/-- Claim C4 (witness): forces 100, 250 and 180 N over a 10 mm² cross-section
give a stored and returned UTS of 25.0 MPa, the maximum of the stresses. -/
theorem uts_peak_stress_witness :
    (sampleUTS.calculate_from_measurements
      [⟨some 100⟩, ⟨some 250⟩, ⟨some 180⟩] 10).1 = 25 ∧
    (25 : ℚ) ∈ validStresses [⟨some 100⟩, ⟨some 250⟩, ⟨some 180⟩] 10 ∧
    (∀ x ∈ validStresses [⟨some 100⟩, ⟨some 250⟩, ⟨some 180⟩] 10, x ≤ 25) ∧
    (sampleUTS.calculate_from_measurements
      [⟨some 100⟩, ⟨some 250⟩, ⟨some 180⟩] 10).2 =
      { sampleUTS with utsMPa := 25 } := by
  have h := uts_peak_stress sampleUTS [⟨some 100⟩, ⟨some 250⟩, ⟨some 180⟩] 10
    (by decide) (by decide) (by decide)
  have hval : (sampleUTS.calculate_from_measurements
      [⟨some 100⟩, ⟨some 250⟩, ⟨some 180⟩] 10).1 = 25 := by
    norm_num [UltimateTensileStrength.calculate_from_measurements, utsStep,
      List.foldl_cons, List.foldl_nil]
  refine ⟨hval, ?_, ?_, ?_⟩
  · have h1 := h.1
    rw [hval] at h1
    exact h1
  · intro x hx
    have h2 := h.2.1 x hx
    rw [hval] at h2
    exact h2
  · have h3 := h.2.2
    rw [hval] at h3
    exact h3

/-- Claim C5 (counterexample): two readings at the same temperature satisfy
"at least two readings" and a positive original length, yet the call is a
no-op returning the previously stored `7` — it does not store the claimed
formula value (whose ΔT denominator is zero; as a rational expression it
evaluates to `0 ≠ 7`). -/
theorem cte_equal_temperatures_counterexample :
    sampleCTE.calculate_from_measurements [⟨25, 0⟩, ⟨25, 50⟩] 10 =
      (7, sampleCTE) ∧
    sampleCTE.ctePpmPerC = 7 ∧
    cteFormula_spec ⟨25, 0⟩ ⟨25, 50⟩ 10 = 0 ∧ (7 : ℚ) ≠ 0 := by
  refine ⟨?_, ?_, ?_, ?_⟩
  · have hsort : cteSorted [(⟨25, 0⟩ : TMADatapoint), ⟨25, 50⟩] =
        [⟨25, 0⟩, ⟨25, 50⟩] := by
      unfold cteSorted
      norm_num [List.mergeSort, List.merge]
    unfold CoefficientOfThermalExpansion.calculate_from_measurements
    rw [hsort]
    norm_num [sampleCTE, List.getLast?]
  · rfl
  · unfold cteFormula_spec
    norm_num
  · norm_num

/-- Claim C5 (amended): with at least two readings, a positive original
length, and a strictly positive temperature spread between the first and last
points of the temperature-sorted list, the CTE derivation stores and returns
`(ΔdimensionChangeMicron / (original_length_mm * 1000)) / ΔT * 1e6` (also
recording the temperature range endpoints), and the sorted endpoints bound
every reading's temperature; with fewer than two readings the call is a no-op
returning the stored value. -/
theorem cte_two_endpoint_slope_amended (s : CoefficientOfThermalExpansion)
    (ms : List TMADatapoint) (L0 : ℚ) :
    (∀ first lastm, (cteSorted ms).head? = some first →
      (cteSorted ms).getLast? = some lastm →
      2 ≤ ms.length → 0 < L0 → first.temperatureC < lastm.temperatureC →
      s.calculate_from_measurements ms L0 =
        (cteFormula_spec first lastm L0,
         { s with ctePpmPerC := cteFormula_spec first lastm L0,
                  temperatureRangeLowC := first.temperatureC,
                  temperatureRangeHighC := lastm.temperatureC }) ∧
      (∀ m ∈ ms, first.temperatureC ≤ m.temperatureC ∧
        m.temperatureC ≤ lastm.temperatureC)) ∧
    (ms.length < 2 →
      s.calculate_from_measurements ms L0 = (s.ctePpmPerC, s)) := by
  constructor
  · intro first lastm h1 h2 hlen hL hdt
    constructor
    · unfold CoefficientOfThermalExpansion.calculate_from_measurements
      have hE : ms.isEmpty = false := by
        cases ms with
        | nil => simp at hlen
        | cons a l => rfl
      simp only [hE, Bool.false_eq_true, if_false, if_neg (not_lt.mpr hlen),
        if_neg (not_le.mpr hL), h1, h2]
      rw [if_pos (sub_pos.mpr hdt)]
      unfold cteFormula_spec
      rfl
    · intro m hm
      have hp := cteSorted_pairwise ms
      have hmem : m ∈ cteSorted ms := (cteSorted_mem ms m).mpr hm
      exact ⟨pairwise_head?_le _ hp first h1 m hmem,
             pairwise_le_getLast? _ hp lastm h2 m hmem⟩
  · intro hlt
    unfold CoefficientOfThermalExpansion.calculate_from_measurements
    cases ms with
    | nil => rfl
    | cons a l =>
      simp only [List.isEmpty_cons, Bool.false_eq_true, if_false, if_pos hlt]

/-- Claim C5 (witness): the two TMA points `(25 °C, 0 µm)` and
`(125 °C, 50 µm)` on a 10 mm sample give a stored and returned CTE of
50 ppm/°C. -/
theorem cte_two_endpoint_slope_amended_witness :
    sampleCTE.calculate_from_measurements [⟨25, 0⟩, ⟨125, 50⟩] 10 =
      (50, { sampleCTE with ctePpmPerC := 50, temperatureRangeLowC := 25, temperatureRangeHighC := 125 }) := by
  have hsort : cteSorted [(⟨25, 0⟩ : TMADatapoint), ⟨125, 50⟩] =
      [⟨25, 0⟩, ⟨125, 50⟩] := by
    unfold cteSorted
    norm_num [List.mergeSort, List.merge]
  have h := ((cte_two_endpoint_slope_amended sampleCTE [⟨25, 0⟩, ⟨125, 50⟩]
      10).1 ⟨25, 0⟩ ⟨125, 50⟩ (by rw [hsort]; rfl) (by rw [hsort]; simp [List.getLast?])
      (by decide) (by norm_num) (by norm_num)).1
  have hv : cteFormula_spec ⟨25, 0⟩ ⟨125, 50⟩ 10 = 50 := by
    unfold cteFormula_spec
    norm_num
  rw [hv] at h
  exact h

/-- Claim C6 (counterexample): the CTE derivation overwrites more than the
single reportable numeric field — after a successful call,
`temperatureRangeLowC` has changed from `99` to `25`. -/
theorem cte_range_fields_overwritten :
    ((sampleCTE99.calculate_from_measurements [⟨25, 0⟩, ⟨125, 50⟩] 10).2).temperatureRangeLowC = 25 ∧
    sampleCTE99.temperatureRangeLowC = 99 := by
  constructor
  · have hsort : cteSorted [(⟨25, 0⟩ : TMADatapoint), ⟨125, 50⟩] =
        [⟨25, 0⟩, ⟨125, 50⟩] := by
      unfold cteSorted
      norm_num [List.mergeSort, List.merge]
    unfold CoefficientOfThermalExpansion.calculate_from_measurements
    rw [hsort]
    norm_num [List.getLast?]
  · rfl

/-- Claim C6 (amended): each derivation overwrites only its reportable numeric
field (with the returned value) and leaves every other field unchanged, with
two exceptions visible in the source: the CTE derivation may also overwrite
`temperatureRangeLowC` / `temperatureRangeHighC`, and the Owens-Wendt solve
overwrites its three energy components and the `calculationMethod` tag. -/
theorem single_field_frame_amended :
    (∀ (s : HardnessScale) ms, (s.calculate_from_measurements ms).2 =
      { s with hardnessValue := (s.calculate_from_measurements ms).1 }) ∧
    (∀ (s : ReferentialSpecificGravity) ms, (s.calculate_from_measurements ms).2 =
      { s with specificGravityValue := (s.calculate_from_measurements ms).1 }) ∧
    (∀ (s : UltimateTensileStrength) ms (area : ℚ),
      (s.calculate_from_measurements ms area).2 =
        { s with utsMPa := (s.calculate_from_measurements ms area).1 }) ∧
    (∀ (s : KrebsViscosity) ms,
      (∃ e, s.calculate_from_stormer_measurements ms = .error e) ∨
      (∃ v, s.calculate_from_stormer_measurements ms =
        .ok (v, { s with viscosityKU := v }))) ∧
    (∀ (s : MFIValue) ms,
      (∃ e, s.calculate_from_measurements ms = .error e) ∨
      (∃ v, s.calculate_from_measurements ms =
        .ok (v, { s with mfiGramsPer10Min := v }))) ∧
    (∀ (s : CoefficientOfThermalExpansion) ms (L0 : ℚ), ∃ lo hi,
      (s.calculate_from_measurements ms L0).2 =
        { s with ctePpmPerC := (s.calculate_from_measurements ms L0).1,
                 temperatureRangeLowC := lo, temperatureRangeHighC := hi }) ∧
    (∀ (s : CriticalSurfaceTension) (wa da : ℝ),
      (s.calculate_from_owens_wendt wa da).2 =
        { s with surfaceEnergyMNm := (s.calculate_from_owens_wendt wa da).1.1,
                 dispersiveComponent := (s.calculate_from_owens_wendt wa da).1.2.1,
                 polarComponent := (s.calculate_from_owens_wendt wa da).1.2.2,
                 calculationMethod := "Owens-Wendt" }) :=
  ⟨hardness_calculate_frame, sg_calculate_frame, uts_calculate_frame,
   krebs_calculate_frame, mfi_calculate_frame, cte_calculate_frame,
   cst_calculate_frame⟩

/-- Claim C7: the Owens-Wendt solve is the closed-form two-liquid solution
with the fixed probe constants (water 72.8 / 21.8 / 51.0, diiodomethane 50.8
fully dispersive): the dispersive and polar components match the spec's
formulas, the total is their sum, and at a diiodomethane contact angle of 0°
the dispersive component is exactly 50.8 (for any water angle, in particular
70°). -/
theorem owens_wendt_closed_form (s : CriticalSurfaceTension)
    (water_angle diiodomethane_angle : ℝ) :
    (s.calculate_from_owens_wendt water_angle diiodomethane_angle).1.2.1 =
      owensWendtDispersive_spec diiodomethane_angle ∧
    (s.calculate_from_owens_wendt water_angle diiodomethane_angle).1.2.2 =
      owensWendtPolar_spec water_angle diiodomethane_angle ∧
    (s.calculate_from_owens_wendt water_angle diiodomethane_angle).1.1 =
      owensWendtDispersive_spec diiodomethane_angle +
        owensWendtPolar_spec water_angle diiodomethane_angle ∧
    (s.calculate_from_owens_wendt water_angle 0).1.2.1 = 50.8 := by
  refine ⟨rfl, rfl, rfl, ?_⟩
  have hd : owensWendtDispersive_spec 0 = 50.8 := by
    unfold owensWendtDispersive_spec
    rw [zero_mul, Real.cos_zero, div_pow, mul_pow, mul_pow,
      Real.sq_sqrt (by norm_num : (0 : ℝ) ≤ 50.8)]
    norm_num
  calc (s.calculate_from_owens_wendt water_angle 0).1.2.1
      = owensWendtDispersive_spec 0 := rfl
    _ = 50.8 := hd

/-- Claim C8 (counterexample): constructing a `ShoreMeasurement` performs three
assignments to `abstractionLevel`, all of them `3` — the parent-class
initializer also assigns the dynamically-resolved concrete constant `3`,
never `2`. -/
theorem shore_parent_init_assigns_concrete_constant :
    (ShoreMeasurement.mkNew "sm-1" "mat-1" "hs-1" 1 72 "A" 1 6 "center" 23
      "" "op" "durometer" "" true).2 = [3, 3, 3] ∧
    (2 : ℕ) ∉ (ShoreMeasurement.mkNew "sm-1" "mat-1" "hs-1" 1 72 "A" 1 6
      "center" 23 "" "op" "durometer" "" true).2 ∧
    (ShoreMeasurement.mkNew "sm-1" "mat-1" "hs-1" 1 72 "A" 1 6 "center" 23
      "" "op" "durometer" "" true).1.abstractionLevel = 3 := by
  refine ⟨rfl, by decide, rfl⟩

/-- Claim C8 (amended): for every combination of caller-supplied constructor
arguments, a constructed object's `abstractionLevel` is the concrete class's
`ABSTRACTION_LEVEL` constant (3 for `ShoreMeasurement`, 2 for
`HardnessScale`), every assignment in the construction chain writes that same
dynamically-resolved constant (so the parent initializer writes 3, not 2),
and no derivation call changes `abstractionLevel` afterwards. -/
theorem abstraction_level_class_constant_amended :
    (∀ (id materialId hardnessScaleId : String) (sequenceNumber : ℤ)
       (hardnessReading : ℚ) (shoreType : String)
       (readingTime sampleThickness : ℚ) (locationOnSample : String)
       (temperature : ℚ) (measurementDate operator equipment notes : String)
       (ose : Bool),
      (ShoreMeasurement.mkNew id materialId hardnessScaleId sequenceNumber
        hardnessReading shoreType readingTime sampleThickness locationOnSample
        temperature measurementDate operator equipment notes
        ose).1.abstractionLevel = ShoreMeasurement.ABSTRACTION_LEVEL ∧
      (ShoreMeasurement.mkNew id materialId hardnessScaleId sequenceNumber
        hardnessReading shoreType readingTime sampleThickness locationOnSample
        temperature measurementDate operator equipment notes ose).2 =
        [ShoreMeasurement.ABSTRACTION_LEVEL, ShoreMeasurement.ABSTRACTION_LEVEL,
         ShoreMeasurement.ABSTRACTION_LEVEL]) ∧
    (∀ (id materialId : String) (hardnessValue : ℚ) (scale : String)
       (temperature : ℚ) (measurementDate notes : String),
      (HardnessScale.mkNew id materialId hardnessValue scale temperature
        measurementDate notes).1.abstractionLevel =
          HardnessScale.ABSTRACTION_LEVEL ∧
      (HardnessScale.mkNew id materialId hardnessValue scale temperature
        measurementDate notes).2 =
        [HardnessScale.ABSTRACTION_LEVEL, HardnessScale.ABSTRACTION_LEVEL]) ∧
    (∀ (s : HardnessScale) ms,
      ((s.calculate_from_measurements ms).2).abstractionLevel =
        s.abstractionLevel) ∧
    (∀ (s : UltimateTensileStrength) ms (area : ℚ),
      ((s.calculate_from_measurements ms area).2).abstractionLevel =
        s.abstractionLevel) ∧
    (∀ (s : CoefficientOfThermalExpansion) ms (L0 : ℚ),
      ((s.calculate_from_measurements ms L0).2).abstractionLevel =
        s.abstractionLevel) ∧
    (∀ (s : ReferentialSpecificGravity) ms,
      ((s.calculate_from_measurements ms).2).abstractionLevel =
        s.abstractionLevel) ∧
    (∀ (s : CriticalSurfaceTension) (wa da : ℝ),
      ((s.calculate_from_owens_wendt wa da).2).abstractionLevel =
        s.abstractionLevel) := by
  refine ⟨?_, ?_, ?_, ?_, ?_, ?_, ?_⟩
  · intro id materialId hardnessScaleId sequenceNumber hardnessReading
      shoreType readingTime sampleThickness locationOnSample temperature
      measurementDate operator equipment notes ose
    exact ⟨rfl, rfl⟩
  · intro id materialId hardnessValue scale temperature measurementDate notes
    exact ⟨rfl, rfl⟩
  · intro s ms
    rw [hardness_calculate_frame]
  · intro s ms area
    rw [uts_calculate_frame]
  · intro s ms L0
    obtain ⟨lo, hi, heq⟩ := cte_calculate_frame s ms L0
    rw [heq]
  · intro s ms
    rw [sg_calculate_frame]
  · intro s wa da
    rw [cst_calculate_frame]

/-- Claim C9: instantiating through the registry with an unknown key fails
with the dictionary lookup error, which is distinguishable (by error class)
from the constructor-field error possible on a known key, and for a known key
every supplied keyword field reaches the constructor unmodified. -/
theorem registry_create_contract :
    (∀ (key : String) (fields : List (String × String)),
      registered_classes.contains key = false →
      create key fields = .error (.keyError key)) ∧
    (∀ (key : String) (fields : List (String × String)),
      registered_classes.contains key = true →
      create key fields = .ok ⟨key, fields⟩) ∧
    (∀ k f, RegistryError.keyError k ≠ RegistryError.typeError f) := by
  refine ⟨?_, ?_, ?_⟩
  · intro key fields hkey
    unfold create
    rw [hkey]
    rfl
  · intro key fields hkey
    unfold create
    rw [hkey]
    rfl
  · intro k f h
    cases h

/-- Claim C9 (witness): an unregistered name fails with the lookup error while
a registered name gets its fields through verbatim. -/
theorem registry_create_contract_witness :
    create "NotARegisteredClass" [] =
      .error (.keyError "NotARegisteredClass") ∧
    create "Material" [("name", "PLA"), ("description", "polymer")] =
      .ok ⟨"Material", [("name", "PLA"), ("description", "polymer")]⟩ := by
  constructor
  · exact registry_create_contract.1 "NotARegisteredClass" [] (by decide)
  · exact registry_create_contract.2.1 "Material"
      [("name", "PLA"), ("description", "polymer")] (by decide)

/-- Claim C10: on a non-empty list with a positive cross-section area but no
record bearing a positive `forceN`, the UTS derivation overwrites the stored
`utsMPa` with `0.0` and returns `0.0`, discarding the previous value —
whereas the mean-based derivations (hardness, Krebs viscosity, MFI, specific
gravity) leave their stored value and state unchanged when every record is
skipped. -/
theorem uts_zero_overwrite_vs_mean_noop :
    (∀ (s : UltimateTensileStrength) ms (area : ℚ), ms ≠ [] → 0 < area →
      (∀ m ∈ ms, m.isSkipped = true) →
      s.calculate_from_measurements ms area = (0, { s with utsMPa := 0 })) ∧
    (∀ (s : HardnessScale) ms, (∀ m ∈ ms, m.isSkipped = true) →
      s.calculate_from_measurements ms = (s.hardnessValue, s)) ∧
    (∀ (s : KrebsViscosity) ms, (∀ m ∈ ms, m.isSkipped = true) →
      s.calculate_from_stormer_measurements ms = .ok (s.viscosityKU, s)) ∧
    (∀ (s : MFIValue) ms, (∀ m ∈ ms, m.isSkipped = true) →
      s.calculate_from_measurements ms = .ok (s.mfiGramsPer10Min, s)) ∧
    (∀ (s : ReferentialSpecificGravity) ms, (∀ m ∈ ms, m.isSkipped = true) →
      s.calculate_from_measurements ms = (s.specificGravityValue, s)) := by
  refine ⟨?_, ?_, ?_, ?_, ?_⟩
  · intro s ms area hne harea hall
    unfold UltimateTensileStrength.calculate_from_measurements
    have hE : ms.isEmpty = false := by simp [hne]
    simp only [hE, Bool.false_eq_true, if_false, if_neg (not_le.mpr harea)]
    rw [foldl_utsStep_all_skipped area ms hall 0]
  · intro s ms hall
    by_cases hms : ms = []
    · subst hms; rfl
    · unfold HardnessScale.calculate_from_measurements
      have hE : ms.isEmpty = false := by simp [hms]
      simp only [hE, Bool.false_eq_true, if_false]
      rw [foldl_hardnessStep_all_skipped ms hall]
      norm_num
  · intro s ms hall
    by_cases hms : ms = []
    · subst hms; rfl
    · unfold KrebsViscosity.calculate_from_stormer_measurements
      have hE : ms.isEmpty = false := by simp [hms]
      simp only [hE, Bool.false_eq_true, if_false]
      rw [krebsLoop_all_skipped ms hall (0, 0)]
      norm_num
  · intro s ms hall
    by_cases hms : ms = []
    · subst hms; rfl
    · unfold MFIValue.calculate_from_measurements
      have hE : ms.isEmpty = false := by simp [hms]
      simp only [hE, Bool.false_eq_true, if_false]
      rw [mfiLoop_all_skipped ms hall (0, 0)]
      norm_num
  · intro s ms hall
    by_cases hms : ms = []
    · subst hms; rfl
    · unfold ReferentialSpecificGravity.calculate_from_measurements
      have hE : ms.isEmpty = false := by simp [hms]
      simp only [hE, Bool.false_eq_true, if_false]
      rw [foldl_sgStep_all_skipped ms hall]
      norm_num

/-- Claim C10 (witness): with records missing `forceN` or carrying a
non-positive reading, UTS overwrites its stored `7` with `0`, while the
mean-based derivations leave their states untouched. -/
theorem uts_zero_overwrite_vs_mean_noop_witness :
    sampleUTS.calculate_from_measurements [⟨none⟩, ⟨some (-5)⟩] 10 =
      (0, { sampleUTS with utsMPa := 0 }) ∧
    sampleUTS.utsMPa = 7 ∧
    sampleHardnessScale.calculate_from_measurements [⟨none⟩, ⟨some (-5)⟩] =
      (sampleHardnessScale.hardnessValue, sampleHardnessScale) ∧
    sampleKrebsViscosity.calculate_from_stormer_measurements
      [⟨some (-1), some 100⟩] =
      .ok (sampleKrebsViscosity.viscosityKU, sampleKrebsViscosity) ∧
    sampleMFI.calculate_from_measurements [⟨some (-2), none⟩] =
      .ok (sampleMFI.mfiGramsPer10Min, sampleMFI) ∧
    sampleSG.calculate_from_measurements [⟨none⟩] =
      (sampleSG.specificGravityValue, sampleSG) := by
  refine ⟨?_, rfl, ?_, ?_, ?_, ?_⟩
  · exact uts_zero_overwrite_vs_mean_noop.1 sampleUTS [⟨none⟩, ⟨some (-5)⟩]
      10 (by decide) (by decide) (by decide)
  · exact uts_zero_overwrite_vs_mean_noop.2.1 sampleHardnessScale
      [⟨none⟩, ⟨some (-5)⟩] (by decide)
  · exact uts_zero_overwrite_vs_mean_noop.2.2.1 sampleKrebsViscosity
      [⟨some (-1), some 100⟩] (by decide)
  · exact uts_zero_overwrite_vs_mean_noop.2.2.2.1 sampleMFI
      [⟨some (-2), none⟩] (by decide)
  · exact uts_zero_overwrite_vs_mean_noop.2.2.2.2 sampleSG [⟨none⟩]
      (by decide)
